import Mathlib

/-!
Shallow embedding of `src/todo.py`, a command-line to-do list app, together
with theorems settling the behavioural claims about it.

Conventions of the embedding:
* Python's parsed JSON data (`json.loads` result) is modelled by `JValue`.
  A `JValue.obj` models a Python dict, so its keys are unique.
* File I/O is modelled by `FileState`: the backing file is absent, unreadable
  (`OSError` on read), not valid JSON, or holds a parsed `JValue`.
* Each command handler returns a `CmdResult` recording the in-memory task
  list after the call, the list passed to `save_tasks` (if it was called),
  and the lines printed to stdout.
* Python's `int()` conversion is modelled for ASCII decimal strings
  (optional surrounding whitespace, optional sign, digits with single
  underscores between digits); non-ASCII digits are not modelled.
-/

namespace Todo

/-- Structured values as produced by Python's `json.loads`.  `obj` models a
Python dict: keys are unique (duplicate keys cannot survive parsing). -/
inductive JValue where
  | null
  | bool (b : Bool)
  | num (n : Int)
  | str (s : String)
  | arr (items : List JValue)
  | obj (fields : List (String × JValue))

/-- Python `dict.get(k)`: the value bound to `k`, if any. -/
def jget (fields : List (String × JValue)) (k : String) : Option JValue :=
  (fields.find? (fun p => p.1 == k)).map (fun p => p.2)

/-- Python `dict.get(k, d)`: the value bound to `k`, or the default `d`. -/
def jgetD (fields : List (String × JValue)) (k : String) (d : JValue) : JValue :=
  (jget fields k).getD d

/-- Python `v == s` for a JSON value `v` and a string `s`: true exactly when
`v` is that string (comparison with a non-string value is `False`). -/
def JValue.eqStr : JValue → String → Bool
  | JValue.str t, s => t == s
  | _, _ => false

/-- Python `str(v)` as used when rendering a task's category.  Only the
string case is reachable through the documented add/load paths. -/
def pyStr : JValue → String
  | JValue.str s => s
  | JValue.bool true => "True"
  | JValue.bool false => "False"
  | JValue.null => "None"
  | JValue.num n => toString n
  | _ => ""

/-- The `Task` dataclass of `todo.py`.  The Python class annotates
`priority` and `category` as `str` but never enforces it: `load_tasks`
stores whatever JSON value the file held, so both fields are embedded as
`JValue`.  All documented construction paths use string values. -/
structure Task where
  title : String
  done : Bool
  priority : JValue
  category : JValue

/-- A task all of whose fields have the documented types: the spec's
"well-formed" task (title and done are typed already). -/
def WFTask (t : Task) : Prop :=
  (∃ p, t.priority = JValue.str p) ∧ (∃ c, t.category = JValue.str c)

/-- State of the backing file `tasks.json` as seen by `load_tasks`. -/
inductive FileState where
  | absent
  | unreadable
  | invalidJson
  | content (v : JValue)

/-- One iteration of the loading loop of `load_tasks` (lines 58-70 of
`todo.py`): a non-dict element, a missing or non-string `title`, or a
non-boolean `done` yields `none` (the element is skipped); otherwise the
task is built, with `done` defaulting to `False` and `priority`/`category`
defaulting to `"normal"`/`"None"` when absent. -/
def taskOfItem : JValue → Option Task
  | JValue.obj fields =>
    match jget fields "title", jgetD fields "done" (JValue.bool false) with
    | some (JValue.str t), JValue.bool d =>
        some ⟨t, d, jgetD fields "priority" (JValue.str "normal"),
                    jgetD fields "category" (JValue.str "None")⟩
    | _, _ => none
  | _ => none

/-- `load_tasks` of `todo.py`: an absent, unreadable or syntactically
invalid file, or a non-list top level, loads as the empty list; otherwise
each element is converted by `taskOfItem`, invalid elements being skipped. -/
def load_tasks : FileState → List Task
  | FileState.content (JValue.arr items) => items.filterMap taskOfItem
  | _ => []

/-- Python `dataclasses.asdict` on a `Task`: a dict with the four fields in
declaration order. -/
def asdict (t : Task) : JValue :=
  JValue.obj [("title", JValue.str t.title), ("done", JValue.bool t.done),
              ("priority", t.priority), ("category", t.category)]

/-- `save_tasks` of `todo.py`, as the structured value serialised to the
file (`[asdict(t) for t in tasks]`).  The surrounding `OSError` swallowing
concerns the write and does not change what is serialised. -/
def save_tasks (tasks : List Task) : JValue :=
  JValue.arr (tasks.map asdict)

/-- Strip leading and trailing whitespace from a character list, modelling
Python's `str.strip()` (ASCII whitespace). -/
def stripChars (cs : List Char) : List Char :=
  ((cs.dropWhile Char.isWhitespace).reverse.dropWhile Char.isWhitespace).reverse

/-- Python `title.strip()`. -/
def pyStrip (s : String) : String :=
  String.mk (stripChars s.data)

/-- Digit tail of a Python integer literal: digits with single underscores
allowed between digits, accumulating the value. -/
def pyIntDigits : List Char → Nat → Option Nat
  | [], acc => some acc
  | '_' :: c :: cs, acc =>
      if c.isDigit then pyIntDigits cs (acc * 10 + (c.toNat - 48)) else none
  | c :: cs, acc =>
      if c.isDigit then pyIntDigits cs (acc * 10 + (c.toNat - 48)) else none

/-- Body of Python `int()` after whitespace stripping: optional sign, then
at least one digit. -/
def pyIntOfChars : List Char → Option Int
  | [] => none
  | '+' :: cs =>
      match cs with
      | c :: rest =>
          if c.isDigit then (pyIntDigits rest (c.toNat - 48)).map Int.ofNat else none
      | [] => none
  | '-' :: cs =>
      match cs with
      | c :: rest =>
          if c.isDigit then (pyIntDigits rest (c.toNat - 48)).map (fun n => -(Int.ofNat n))
          else none
      | [] => none
  | c :: cs =>
      if c.isDigit then (pyIntDigits cs (c.toNat - 48)).map Int.ofNat else none

/-- Python `int(num_str)` on an ASCII decimal string: `none` models the
`ValueError` branch. -/
def pyInt (s : String) : Option Int :=
  pyIntOfChars (stripChars s.data)

/-- Result of `_index_from_user`: either a 0-based index or a printed
error message (the Python function returns `None` after printing). -/
inductive IndexResult where
  | ok (idx : Nat)
  | err (msg : String)

/-- `_index_from_user` of `todo.py`: converts a 1-based user index string
into a 0-based index, printing one of three error messages when invalid. -/
def _index_from_user (tasks : List Task) (numStr : String) : IndexResult :=
  match pyInt numStr with
  | none => IndexResult.err "Please provide a valid task number."
  | some num =>
    if num < 1 ∨ num > (tasks.length : Int) then
      if tasks.isEmpty then IndexResult.err "There are no tasks yet."
      else IndexResult.err ("Task number must be between 1 and " ++ toString tasks.length ++ ".")
    else IndexResult.ok (num - 1).toNat

/-- Observable outcome of one command handler invocation: the in-memory
task list afterwards, the list passed to `save_tasks` if it was called,
and the printed lines. -/
structure CmdResult where
  tasks : List Task
  saved : Option (List Task)
  output : List String

/-- One line of `cmd_list` output for the task at 0-based position `idx0`. -/
def renderTask (idx0 : Nat) (t : Task) : String :=
  let status := if t.done then "✓" else " "
  let marker := if t.priority.eqStr "high" then "🔴 "
                else if t.priority.eqStr "low" then "🔵 "
                else ""
  toString (idx0 + 1) ++ ". [" ++ status ++ "] " ++ marker ++ t.title ++ " :: " ++ pyStr t.category

/-- `cmd_list` of `todo.py` (it never mutates or saves). -/
def cmd_list (tasks : List Task) : CmdResult :=
  if tasks.isEmpty then ⟨tasks, none, ["No tasks. You\x27re all caught up!"]⟩
  else ⟨tasks, none, tasks.enum.map (fun p => renderTask p.1 p.2)⟩

/-- `cmd_add` of `todo.py`.  The Python defaults `priority="normal"`,
`category="None"` are passed explicitly by the callers in this embedding. -/
def cmd_add (tasks : List Task) (title priority category : String) : CmdResult :=
  if pyStrip title = "" then ⟨tasks, none, ["Cannot add an empty task."]⟩
  else
    ⟨tasks ++ [⟨pyStrip title, false, JValue.str priority, JValue.str category⟩],
     some (tasks ++ [⟨pyStrip title, false, JValue.str priority, JValue.str category⟩]),
     ["Added: \"" ++ pyStrip title ++ "\""]⟩

/-- The title of the task at 0-based position `i`, with an empty-string
default out of range (the commands below only consult it in range). -/
def titleAt (tasks : List Task) (i : Nat) : String :=
  match tasks.get? i with
  | some t => t.title
  | none => ""

/-- `tasks[idx].done = True`: set the `done` field of the task at 0-based
position `idx`, leaving everything else unchanged. -/
def setDone : List Task → Nat → List Task
  | [], _ => []
  | t :: ts, 0 => { t with done := true } :: ts
  | t :: ts, n + 1 => t :: setDone ts n

/-- `cmd_done` of `todo.py`.  The empty-list check comes first, before
`_index_from_user` is consulted.  The `""` default in the printed title is
unreachable: the index returned by `_index_from_user` is in range. -/
def cmd_done (tasks : List Task) (numStr : String) : CmdResult :=
  if tasks.isEmpty then ⟨tasks, none, ["No tasks to mark as done."]⟩
  else
    match _index_from_user tasks numStr with
    | IndexResult.err m => ⟨tasks, none, [m]⟩
    | IndexResult.ok idx =>
      ⟨setDone tasks idx, some (setDone tasks idx),
       ["Marked as done: \"" ++ titleAt (setDone tasks idx) idx ++ "\""]⟩

/-- `cmd_delete` of `todo.py`: `tasks.pop(idx)` is `List.eraseIdx`. -/
def cmd_delete (tasks : List Task) (numStr : String) : CmdResult :=
  if tasks.isEmpty then ⟨tasks, none, ["No tasks to delete."]⟩
  else
    match _index_from_user tasks numStr with
    | IndexResult.err m => ⟨tasks, none, [m]⟩
    | IndexResult.ok idx =>
      ⟨tasks.eraseIdx idx, some (tasks.eraseIdx idx),
       ["Deleted: \"" ++ titleAt tasks idx ++ "\""]⟩

/-- The update loop of `cmd_done_category` (lines 195-199 of `todo.py`):
returns the updated list and `updated_count`. -/
def markCategory (category : String) : List Task → List Task × Nat
  | [] => ([], 0)
  | t :: ts =>
    let rest := markCategory category ts
    if t.category.eqStr category && !t.done then
      ({ t with done := true } :: rest.1, rest.2 + 1)
    else (t :: rest.1, rest.2)

/-- Pointwise form of the update loop: mark a single task done when its
category matches and it is pending. -/
def markDoneIfCat (category : String) (t : Task) : Task :=
  if t.category.eqStr category && !t.done then { t with done := true } else t

/-- A task that `cmd_done_category` would update: matching category and not
yet done. -/
def pendingInCat (category : String) (t : Task) : Bool :=
  t.category.eqStr category && !t.done

/-- `cmd_done_category` of `todo.py`.  When `updated_count` is zero the
loop changed nothing, so the in-memory list is returned as the (unchanged)
updated list, mirroring the in-place Python mutation. -/
def cmd_done_category (tasks : List Task) (category : String) : CmdResult :=
  if tasks.isEmpty then ⟨tasks, none, ["No tasks to update."]⟩
  else if (markCategory category tasks).2 = 0 then
    ⟨(markCategory category tasks).1, none,
     ["No pending tasks found in category \"" ++ category ++ "\"."]⟩
  else
    ⟨(markCategory category tasks).1, some (markCategory category tasks).1,
     ["Marked " ++ toString (markCategory category tasks).2 ++
      " task(s) as done in category \"" ++ category ++ "\"."]⟩

/-- `cmd_clear_completed` of `todo.py`. -/
def cmd_clear_completed (tasks : List Task) : CmdResult :=
  if tasks.isEmpty then ⟨tasks, none, ["No tasks to clear."]⟩
  else if tasks.length - (tasks.filter (fun t => !t.done)).length = 0 then
    ⟨tasks, none, ["There are no completed tasks to clear."]⟩
  else
    ⟨tasks.filter (fun t => !t.done), some (tasks.filter (fun t => !t.done)),
     ["Cleared " ++ toString (tasks.length - (tasks.filter (fun t => !t.done)).length) ++
      " completed task(s)."]⟩

/-- The lines printed by `print_usage` of `todo.py`. -/
def print_usage : List String :=
  ["Usage:",
   "  todo.py add \"task name\" [--high|--low]",
   "  todo.py add-category <category> \"task name\" [--high|--low]",
   "  todo.py list",
   "  todo.py done <number>",
   "  todo.py done-category <category>",
   "  todo.py delete <number>",
   "  todo.py clear"]

/-- The trailing-flag parsing shared by the `add` and `add-category`
branches of `main`: `*title_parts, last_part = args` followed by the
`--high`/`--low` check.  Returns the title tokens and the priority.
Callers guarantee `args` is non-empty (the `[]` arm is unreachable). -/
def parseTitlePriority (args : List String) : List String × String :=
  match args.getLast? with
  | none => ([], "normal")
  | some last =>
      if last = "--high" then (args.dropLast, "high")
      else if last = "--low" then (args.dropLast, "low")
      else (args.dropLast ++ [last], "normal")

/-- `main` of `todo.py`: the argv router.  `argv` includes the program name
at position 0; the backing file state stands in for the implicit
`load_tasks()` call. -/
def main : List String → FileState → CmdResult
  | _prog :: command :: rest, fs =>
    if command = "list" then cmd_list (load_tasks fs)
    else if command = "add" then
      match rest with
      | [] => ⟨load_tasks fs, none, ["Missing task name. Example: todo.py add \"Buy milk\""]⟩
      | _ :: _ =>
        cmd_add (load_tasks fs) (String.intercalate " " (parseTitlePriority rest).1)
          (parseTitlePriority rest).2 "None"
    else if command = "add-category" then
      match rest with
      | category :: t :: ts =>
        cmd_add (load_tasks fs) (String.intercalate " " (parseTitlePriority (t :: ts)).1)
          (parseTitlePriority (t :: ts)).2 category
      | _ =>
        ⟨load_tasks fs, none,
         ["Missing category or task name. Example: todo.py add-category Work \"Buy milk\""]⟩
    else if command = "done" then
      match rest with
      | [] => ⟨load_tasks fs, none, ["Missing task number. Example: todo.py done 1"]⟩
      | n :: _ => cmd_done (load_tasks fs) n
    else if command = "done-category" then
      match rest with
      | [] => ⟨load_tasks fs, none, ["Missing category. Example: todo.py done-category Work"]⟩
      | _ :: _ => cmd_done_category (load_tasks fs) (String.intercalate " " rest)
    else if command = "delete" then
      match rest with
      | [] => ⟨load_tasks fs, none, ["Missing task number. Example: todo.py delete 1"]⟩
      | n :: _ => cmd_delete (load_tasks fs) n
    else if command = "clear" then cmd_clear_completed (load_tasks fs)
    else ⟨load_tasks fs, none, ("Unknown command: " ++ command) :: print_usage⟩
  | _, _ => ⟨[], none, print_usage⟩

/-- The list elements that `load_tasks` keeps: a dict whose `title` is a
string and whose `done` key, if present at all, holds a boolean. -/
def keptRecord (item : JValue) : Prop :=
  ∃ fields, item = JValue.obj fields ∧
    (∃ t, jget fields "title" = some (JValue.str t)) ∧
    (jget fields "done" = none ∨ ∃ b, jget fields "done" = some (JValue.bool b))

/-! ## Helper lemmas -/

theorem taskOfItem_asdict (t : Task) : taskOfItem (asdict t) = some t := rfl

theorem filterMap_taskOfItem_asdict (ts : List Task) :
    List.filterMap taskOfItem (ts.map asdict) = ts := by
  induction ts with
  | nil => rfl
  | cons t ts ih => simp [List.filterMap_cons, taskOfItem_asdict, ih]

/-! ## C1: save/load round trip -/

/-- C1: for every list of well-formed tasks (title a string, done a
boolean, priority and category strings), `save_tasks` followed by
`load_tasks` returns a task sequence equal to the original in order and in
every field value. -/
theorem save_load_roundtrip (ts : List Task) (_hwf : ∀ t ∈ ts, WFTask t) :
    load_tasks (FileState.content (save_tasks ts)) = ts := by
  simpa [load_tasks, save_tasks] using filterMap_taskOfItem_asdict ts

/-- Witness for C1 at a concrete well-formed singleton list. -/
theorem save_load_roundtrip_witness :
    (∀ t ∈ [Task.mk "Buy milk" false (JValue.str "normal") (JValue.str "None")], WFTask t) ∧
    load_tasks (FileState.content
        (save_tasks [Task.mk "Buy milk" false (JValue.str "normal") (JValue.str "None")])) =
      [Task.mk "Buy milk" false (JValue.str "normal") (JValue.str "None")] := by
  have hwf : ∀ t ∈ [Task.mk "Buy milk" false (JValue.str "normal") (JValue.str "None")],
      WFTask t := by
    intro t ht
    simp only [List.mem_singleton] at ht
    subst ht
    exact ⟨⟨"normal", rfl⟩, ⟨"None", rfl⟩⟩
  exact ⟨hwf, save_load_roundtrip _ hwf⟩

/-! ## Helper lemmas about `_index_from_user` and the commands using it -/

theorem index_from_user_parse_fail (tasks : List Task) (s : String) (hp : pyInt s = none) :
    _index_from_user tasks s = IndexResult.err "Please provide a valid task number." := by
  unfold _index_from_user
  rw [hp]

theorem index_from_user_out_of_range (tasks : List Task) (s : String) (n : Int)
    (hp : pyInt s = some n) (hne : tasks ≠ []) (hout : n < 1 ∨ n > (tasks.length : Int)) :
    _index_from_user tasks s =
      IndexResult.err ("Task number must be between 1 and " ++ toString tasks.length ++ ".") := by
  simp only [_index_from_user, hp]
  rw [if_pos hout, if_neg (by simpa using hne)]

theorem index_from_user_ok (tasks : List Task) (s : String) (i : Nat)
    (hp : pyInt s = some (i : Int)) (h1 : 1 ≤ i) (hN : i ≤ tasks.length) :
    _index_from_user tasks s = IndexResult.ok (i - 1) := by
  have hcond : ¬((i : Int) < 1 ∨ (i : Int) > (tasks.length : Int)) := by omega
  have htn : ((i : Int) - 1).toNat = i - 1 := by omega
  simp only [_index_from_user, hp]
  rw [if_neg hcond, htn]

theorem cmd_done_of_err (tasks : List Task) (s m : String) (hne : tasks ≠ [])
    (h : _index_from_user tasks s = IndexResult.err m) :
    cmd_done tasks s = ⟨tasks, none, [m]⟩ := by
  unfold cmd_done
  rw [if_neg (by simpa using hne), h]

theorem cmd_done_of_ok (tasks : List Task) (s : String) (idx : Nat) (hne : tasks ≠ [])
    (h : _index_from_user tasks s = IndexResult.ok idx) :
    cmd_done tasks s = ⟨setDone tasks idx, some (setDone tasks idx),
      ["Marked as done: \"" ++ titleAt (setDone tasks idx) idx ++ "\""]⟩ := by
  unfold cmd_done
  rw [if_neg (by simpa using hne), h]

theorem cmd_delete_of_err (tasks : List Task) (s m : String) (hne : tasks ≠ [])
    (h : _index_from_user tasks s = IndexResult.err m) :
    cmd_delete tasks s = ⟨tasks, none, [m]⟩ := by
  unfold cmd_delete
  rw [if_neg (by simpa using hne), h]

theorem cmd_delete_of_ok (tasks : List Task) (s : String) (idx : Nat) (hne : tasks ≠ [])
    (h : _index_from_user tasks s = IndexResult.ok idx) :
    cmd_delete tasks s = ⟨tasks.eraseIdx idx, some (tasks.eraseIdx idx),
      ["Deleted: \"" ++ titleAt tasks idx ++ "\""]⟩ := by
  unfold cmd_delete
  rw [if_neg (by simpa using hne), h]

theorem between_msg_head (N : Nat) :
    ("Task number must be between 1 and " ++ toString N ++ ".").data.head? = some 'T' := rfl

theorem between_msg_ne (N : Nat) (m : String) (hhead : m.data.head? ≠ some 'T') :
    ("Task number must be between 1 and " ++ toString N ++ ".") ≠ m := by
  intro h
  apply hhead
  have h3 : ("Task number must be between 1 and " ++ toString N ++ ".").data.head? =
      m.data.head? := congrArg (fun s : String => s.data.head?) h
  rw [← h3]
  exact between_msg_head N

/-! ## Helper lemmas about `setDone` -/

theorem setDone_length (ts : List Task) (i : Nat) : (setDone ts i).length = ts.length := by
  induction ts generalizing i with
  | nil => rfl
  | cons t ts ih =>
    cases i with
    | zero => rfl
    | succ n => simp [setDone, ih]

theorem setDone_get_eq (ts : List Task) (i : Nat) :
    (setDone ts i).get? i = (ts.get? i).map (fun t => { t with done := true }) := by
  induction ts generalizing i with
  | nil => simp [setDone]
  | cons t ts ih =>
    cases i with
    | zero => rfl
    | succ n => simpa [setDone] using ih n

theorem setDone_get_ne (ts : List Task) (i j : Nat) (h : j ≠ i) :
    (setDone ts i).get? j = ts.get? j := by
  induction ts generalizing i j with
  | nil => rfl
  | cons t ts ih =>
    cases i with
    | zero =>
      cases j with
      | zero => exact absurd rfl h
      | succ m => rfl
    | succ n =>
      cases j with
      | zero => rfl
      | succ m => simpa [setDone] using ih n m (by omega)

/-! ## C2: index validation for mark-done and delete -/

/-- C2 counterexample: on the empty collection with the unparsable index
string "abc", the claimed check order requires the invalid-number message,
but both commands print their empty-collection message instead (the empty
check runs first, before parsing). -/
theorem index_validation_counterexample :
    pyInt "abc" = none ∧
    (cmd_done ([] : List Task) "abc").output = ["No tasks to mark as done."] ∧
    (cmd_delete ([] : List Task) "abc").output = ["No tasks to delete."] ∧
    (cmd_done ([] : List Task) "abc").output ≠ ["Please provide a valid task number."] ∧
    (cmd_delete ([] : List Task) "abc").output ≠ ["Please provide a valid task number."] := by
  refine ⟨by decide, rfl, rfl, ?_, ?_⟩
  · intro h
    have h2 : (["No tasks to mark as done."] : List String) =
        ["Please provide a valid task number."] := h
    simp at h2
  · intro h
    have h2 : (["No tasks to delete."] : List String) =
        ["Please provide a valid task number."] := h
    simp at h2

/-- C2 amended: mark-done and delete first reject the empty collection
with command-specific "no tasks" messages and no mutation; on a non-empty
collection of length N, a string that fails integer parsing yields the
invalid-number message and no mutation, a parsed value outside [1, N]
yields the "must be between 1 and N" message and no mutation, and
otherwise the zero-based index value-1 is used.  The messages are pairwise
distinct, and "0", "N+1", "abc" and "" are all rejected ("0" and any
string parsing to N+1 fall in the out-of-range case, "abc" and "" in the
parse-failure case). -/
theorem index_validation_spec :
    (∀ s : String,
        cmd_done ([] : List Task) s = ⟨[], none, ["No tasks to mark as done."]⟩ ∧
        cmd_delete ([] : List Task) s = ⟨[], none, ["No tasks to delete."]⟩) ∧
    (∀ (tasks : List Task) (s : String), tasks ≠ [] → pyInt s = none →
        cmd_done tasks s = ⟨tasks, none, ["Please provide a valid task number."]⟩ ∧
        cmd_delete tasks s = ⟨tasks, none, ["Please provide a valid task number."]⟩) ∧
    (∀ (tasks : List Task) (s : String) (n : Int), tasks ≠ [] → pyInt s = some n →
        (n < 1 ∨ n > (tasks.length : Int)) →
        cmd_done tasks s =
          ⟨tasks, none, ["Task number must be between 1 and " ++ toString tasks.length ++ "."]⟩ ∧
        cmd_delete tasks s =
          ⟨tasks, none, ["Task number must be between 1 and " ++ toString tasks.length ++ "."]⟩) ∧
    (∀ (tasks : List Task) (s : String) (i : Nat), pyInt s = some (i : Int) →
        1 ≤ i → i ≤ tasks.length → _index_from_user tasks s = IndexResult.ok (i - 1)) ∧
    (pyInt "abc" = none ∧ pyInt "" = none ∧ pyInt "0" = some 0) ∧
    ("No tasks to mark as done." ≠ "No tasks to delete." ∧
     "No tasks to mark as done." ≠ "Please provide a valid task number." ∧
     "No tasks to delete." ≠ "Please provide a valid task number." ∧
     (∀ N : Nat, ("Task number must be between 1 and " ++ toString N ++ ".") ≠
        "No tasks to mark as done." ∧
       ("Task number must be between 1 and " ++ toString N ++ ".") ≠ "No tasks to delete." ∧
       ("Task number must be between 1 and " ++ toString N ++ ".") ≠
        "Please provide a valid task number.")) := by
  refine ⟨fun s => ⟨rfl, rfl⟩, ?_, ?_, ?_, ⟨by decide, by decide, by decide⟩,
    ⟨by decide, by decide, by decide, fun N =>
      ⟨between_msg_ne N _ (by decide), between_msg_ne N _ (by decide),
       between_msg_ne N _ (by decide)⟩⟩⟩
  · intro tasks s hne hp
    exact ⟨cmd_done_of_err tasks s _ hne (index_from_user_parse_fail tasks s hp),
           cmd_delete_of_err tasks s _ hne (index_from_user_parse_fail tasks s hp)⟩
  · intro tasks s n hne hp hout
    exact ⟨cmd_done_of_err tasks s _ hne (index_from_user_out_of_range tasks s n hp hne hout),
           cmd_delete_of_err tasks s _ hne (index_from_user_out_of_range tasks s n hp hne hout)⟩
  · intro tasks s i hp h1 hN
    exact index_from_user_ok tasks s i hp h1 hN

/-- Witness for C2 amended on a length-1 collection: "0", "2" (= N+1),
"abc" and "" are all rejected with the expected messages, and "1" is
accepted as index 0. -/
theorem index_validation_spec_witness :
    (cmd_done [Task.mk "A" false (JValue.str "normal") (JValue.str "None")] "0").output =
      ["Task number must be between 1 and 1."] ∧
    (cmd_delete [Task.mk "A" false (JValue.str "normal") (JValue.str "None")] "2").output =
      ["Task number must be between 1 and 1."] ∧
    (cmd_done [Task.mk "A" false (JValue.str "normal") (JValue.str "None")] "abc").output =
      ["Please provide a valid task number."] ∧
    (cmd_delete [Task.mk "A" false (JValue.str "normal") (JValue.str "None")] "").output =
      ["Please provide a valid task number."] ∧
    _index_from_user [Task.mk "A" false (JValue.str "normal") (JValue.str "None")] "1" =
      IndexResult.ok 0 := by
  have hA : [Task.mk "A" false (JValue.str "normal") (JValue.str "None")] ≠ [] :=
    List.cons_ne_nil _ _
  refine ⟨?_, ?_, ?_, ?_, ?_⟩
  · rw [(index_validation_spec.2.2.1 _ "0" 0 hA (by decide) (by decide)).1]
    rfl
  · rw [(index_validation_spec.2.2.1 _ "2" 2 hA (by decide) (by decide)).2]
    rfl
  · rw [(index_validation_spec.2.1 _ "abc" hA (by decide)).1]
  · rw [(index_validation_spec.2.1 _ "" hA (by decide)).2]
  · exact index_validation_spec.2.2.2.1 _ "1" 1 (by decide) (by decide) (by decide)

/-! ## C10: mark-done frame effect -/

/-- C10: for a non-empty collection and a valid 1-based index i (given as
any string parsing to i), mark-done changes only the done field of the
task at position i, setting it to true: that task's other fields, every
other task, and the collection's length and order are all unchanged (also
when the task was already done), and the updated list is persisted. -/
theorem cmd_done_frame (tasks : List Task) (s : String) (i : Nat)
    (hne : tasks ≠ []) (hp : pyInt s = some (i : Int))
    (h1 : 1 ≤ i) (hN : i ≤ tasks.length) :
    (cmd_done tasks s).tasks.length = tasks.length ∧
    (cmd_done tasks s).tasks.get? (i - 1) =
      (tasks.get? (i - 1)).map (fun t => { t with done := true }) ∧
    (∀ j, j ≠ i - 1 → (cmd_done tasks s).tasks.get? j = tasks.get? j) ∧
    (cmd_done tasks s).saved = some (cmd_done tasks s).tasks := by
  rw [cmd_done_of_ok tasks s (i - 1) hne (index_from_user_ok tasks s i hp h1 hN)]
  exact ⟨setDone_length tasks (i - 1), setDone_get_eq tasks (i - 1),
         fun j hj => setDone_get_ne tasks (i - 1) j hj, rfl⟩

/-- Witness for C10: marking index 2 of a two-task list (whose first task
is already done) sets only the second task's done flag. -/
theorem cmd_done_frame_witness :
    (cmd_done [Task.mk "A" true (JValue.str "normal") (JValue.str "None"),
               Task.mk "B" false (JValue.str "low") (JValue.str "Work")] "2").tasks.get? 1 =
      some (Task.mk "B" true (JValue.str "low") (JValue.str "Work")) ∧
    (cmd_done [Task.mk "A" true (JValue.str "normal") (JValue.str "None"),
               Task.mk "B" false (JValue.str "low") (JValue.str "Work")] "2").tasks.get? 0 =
      some (Task.mk "A" true (JValue.str "normal") (JValue.str "None")) ∧
    (cmd_done [Task.mk "A" true (JValue.str "normal") (JValue.str "None"),
               Task.mk "B" false (JValue.str "low") (JValue.str "Work")] "2").tasks.length = 2 := by
  have h := cmd_done_frame
    [Task.mk "A" true (JValue.str "normal") (JValue.str "None"),
     Task.mk "B" false (JValue.str "low") (JValue.str "Work")] "2" 2
    (List.cons_ne_nil _ _) (by decide) (by decide) (by decide)
  exact ⟨h.2.1, h.2.2.1 0 (by decide), h.1⟩

/-! ## C4: add command -/

/-- C4: add trims the title; if the trimmed title is empty it reports an
error, performs no mutation and does not persist; otherwise it appends
exactly one new task with the trimmed title, done=false, and the given
priority and category, and persists the collection. -/
theorem cmd_add_spec (tasks : List Task) (title priority category : String) :
    (pyStrip title = "" →
      cmd_add tasks title priority category = ⟨tasks, none, ["Cannot add an empty task."]⟩) ∧
    (pyStrip title ≠ "" →
      cmd_add tasks title priority category =
        ⟨tasks ++ [⟨pyStrip title, false, JValue.str priority, JValue.str category⟩],
         some (tasks ++ [⟨pyStrip title, false, JValue.str priority, JValue.str category⟩]),
         ["Added: \"" ++ pyStrip title ++ "\""]⟩) := by
  constructor
  · intro h
    unfold cmd_add
    rw [if_pos h]
  · intro h
    unfold cmd_add
    rw [if_neg h]

/-- Witness for C4: adding " Buy milk " appends the trimmed task and
saves; adding whitespace only is rejected without mutation. -/
theorem cmd_add_spec_witness :
    cmd_add [] " Buy milk " "normal" "None" =
      ⟨[⟨"Buy milk", false, JValue.str "normal", JValue.str "None"⟩],
       some [⟨"Buy milk", false, JValue.str "normal", JValue.str "None"⟩],
       ["Added: \"Buy milk\""]⟩ ∧
    cmd_add [] "   " "high" "Work" = ⟨[], none, ["Cannot add an empty task."]⟩ :=
  ⟨(cmd_add_spec [] " Buy milk " "normal" "None").2 (by decide),
   (cmd_add_spec [] "   " "high" "Work").1 (by decide)⟩

/-! ## C7: delete command -/

theorem eraseIdx_get_lt (ts : List Task) (i j : Nat) (h : j < i) :
    (ts.eraseIdx i).get? j = ts.get? j := by
  rw [List.get?_eq_getElem?, List.get?_eq_getElem?]
  exact List.getElem?_eraseIdx_of_lt ts i j h

theorem eraseIdx_get_ge (ts : List Task) (i j : Nat) (h : i ≤ j) :
    (ts.eraseIdx i).get? j = ts.get? (j + 1) := by
  rw [List.get?_eq_getElem?, List.get?_eq_getElem?]
  exact List.getElem?_eraseIdx_of_ge ts i j h

/-- C7: for every collection and valid 1-based index (any string parsing
to i in [1, N]), delete removes the task at that position, shifting every
subsequent task down by one, persists the shortened collection, and
reports the removed task's title. -/
theorem cmd_delete_spec (tasks : List Task) (s : String) (i : Nat) (t : Task)
    (hne : tasks ≠ []) (hp : pyInt s = some (i : Int))
    (h1 : 1 ≤ i) (hN : i ≤ tasks.length) (ht : tasks.get? (i - 1) = some t) :
    (cmd_delete tasks s).tasks = tasks.eraseIdx (i - 1) ∧
    (cmd_delete tasks s).tasks.length = tasks.length - 1 ∧
    (∀ j, j < i - 1 → (cmd_delete tasks s).tasks.get? j = tasks.get? j) ∧
    (∀ j, i - 1 ≤ j → (cmd_delete tasks s).tasks.get? j = tasks.get? (j + 1)) ∧
    (cmd_delete tasks s).saved = some (tasks.eraseIdx (i - 1)) ∧
    (cmd_delete tasks s).output = ["Deleted: \"" ++ t.title ++ "\""] := by
  have hlen : (tasks.eraseIdx (i - 1)).length = tasks.length - 1 := by
    have hi : i - 1 < tasks.length := by omega
    have := List.length_eraseIdx_add_one hi
    omega
  have htitle : titleAt tasks (i - 1) = t.title := by
    unfold titleAt
    rw [ht]
  rw [cmd_delete_of_ok tasks s (i - 1) hne (index_from_user_ok tasks s i hp h1 hN)]
  exact ⟨rfl, hlen, fun j hj => eraseIdx_get_lt tasks (i - 1) j hj,
         fun j hj => eraseIdx_get_ge tasks (i - 1) j hj, rfl, by rw [htitle]⟩

/-- Witness for C7, the spec's scenario: with tasks ["A", "B"], delete 1
leaves ["B"] at position 1 and reports "A" as deleted. -/
theorem cmd_delete_spec_witness :
    (cmd_delete [Task.mk "A" false (JValue.str "normal") (JValue.str "None"),
                 Task.mk "B" false (JValue.str "normal") (JValue.str "None")] "1").tasks =
      [Task.mk "B" false (JValue.str "normal") (JValue.str "None")] ∧
    (cmd_delete [Task.mk "A" false (JValue.str "normal") (JValue.str "None"),
                 Task.mk "B" false (JValue.str "normal") (JValue.str "None")] "1").output =
      ["Deleted: \"A\""] := by
  have h := cmd_delete_spec
    [Task.mk "A" false (JValue.str "normal") (JValue.str "None"),
     Task.mk "B" false (JValue.str "normal") (JValue.str "None")] "1" 1
    (Task.mk "A" false (JValue.str "normal") (JValue.str "None"))
    (List.cons_ne_nil _ _) (by decide) (by decide) (by decide) rfl
  exact ⟨h.1, h.2.2.2.2.2⟩

/-! ## C5: mark-done-by-category -/

theorem markCategory_fst (c : String) (ts : List Task) :
    (markCategory c ts).1 = ts.map (markDoneIfCat c) := by
  induction ts with
  | nil => rfl
  | cons t ts ih =>
    by_cases h : (t.category.eqStr c && !t.done) = true
    · simp [markCategory, markDoneIfCat, h, ih]
    · simp [markCategory, markDoneIfCat, h, ih]

theorem markCategory_snd (c : String) (ts : List Task) :
    (markCategory c ts).2 = ts.countP (pendingInCat c) := by
  induction ts with
  | nil => rfl
  | cons t ts ih =>
    by_cases h : (t.category.eqStr c && !t.done) = true
    · simp [markCategory, List.countP_cons, pendingInCat, h, ih]
    · simp [markCategory, List.countP_cons, pendingInCat, h, ih]

theorem map_of_countP_pending_zero (c : String) (ts : List Task)
    (h : ts.countP (pendingInCat c) = 0) : ts.map (markDoneIfCat c) = ts := by
  induction ts with
  | nil => rfl
  | cons t ts ih =>
    rw [List.countP_cons] at h
    by_cases hp : pendingInCat c t = true
    · exfalso
      rw [if_pos hp] at h
      omega
    · rw [Bool.not_eq_true] at hp
      rw [hp] at h
      simp only [List.map_cons]
      have hmark : markDoneIfCat c t = t := by
        unfold markDoneIfCat
        unfold pendingInCat at hp
        rw [hp]
        rfl
      rw [hmark, ih (by omega)]

theorem countP_pending_after_mark (c : String) (ts : List Task) :
    (ts.map (markDoneIfCat c)).countP (pendingInCat c) = 0 := by
  induction ts with
  | nil => rfl
  | cons t ts ih =>
    simp only [List.map_cons, List.countP_cons, ih]
    have hzero : pendingInCat c (markDoneIfCat c t) = false := by
      unfold pendingInCat markDoneIfCat
      by_cases h : (t.category.eqStr c && !t.done) = true
      · simp [h]
      · simp only [if_neg h]
        simpa using h
    rw [hzero]
    rfl

theorem cmd_done_category_cases (tasks : List Task) (c : String) (hne : tasks ≠ []) :
    cmd_done_category tasks c =
      if tasks.countP (pendingInCat c) = 0 then
        ⟨tasks, none, ["No pending tasks found in category \"" ++ c ++ "\"."]⟩
      else
        ⟨tasks.map (markDoneIfCat c), some (tasks.map (markDoneIfCat c)),
         ["Marked " ++ toString (tasks.countP (pendingInCat c)) ++
          " task(s) as done in category \"" ++ c ++ "\"."]⟩ := by
  unfold cmd_done_category
  rw [if_neg (by simpa using hne), markCategory_fst, markCategory_snd]
  by_cases h : tasks.countP (pendingInCat c) = 0
  · rw [if_pos h, if_pos h, map_of_countP_pending_zero c tasks h]
  · rw [if_neg h, if_neg h]

/-- C5 counterexample: on the empty collection, zero tasks are updated but
the command prints "No tasks to update.", not the claimed "no pending
tasks in category" message. -/
theorem cmd_done_category_counterexample :
    (cmd_done_category ([] : List Task) "Work").output = ["No tasks to update."] ∧
    (cmd_done_category ([] : List Task) "Work").output ≠
      ["No pending tasks found in category \"Work\"."] ∧
    (cmd_done_category ([] : List Task) "Work").saved = none := by
  refine ⟨rfl, ?_, rfl⟩
  intro h
  have h2 : (["No tasks to update."] : List String) =
      ["No pending tasks found in category \"Work\"."] := h
  simp at h2

/-- C5 amended: on a non-empty collection, mark-done-by-category sets
done=true on exactly the tasks whose category equals the argument under
case-sensitive exact comparison and whose done was false (every other
field and task unchanged, order kept); it reports the number updated, and
when that number is zero it reports "no pending tasks in category" and
does not persist.  On the empty collection it reports "No tasks to
update." without persisting.  A second identical call updates zero tasks
and does not persist. -/
theorem cmd_done_category_spec (tasks : List Task) (c : String) :
    (tasks = [] → cmd_done_category tasks c = ⟨tasks, none, ["No tasks to update."]⟩) ∧
    (tasks ≠ [] → tasks.countP (pendingInCat c) = 0 →
      cmd_done_category tasks c =
        ⟨tasks, none, ["No pending tasks found in category \"" ++ c ++ "\"."]⟩) ∧
    (tasks ≠ [] → tasks.countP (pendingInCat c) ≠ 0 →
      cmd_done_category tasks c =
        ⟨tasks.map (markDoneIfCat c), some (tasks.map (markDoneIfCat c)),
         ["Marked " ++ toString (tasks.countP (pendingInCat c)) ++
          " task(s) as done in category \"" ++ c ++ "\"."]⟩) ∧
    (∀ t : Task, markDoneIfCat c t =
      if pendingInCat c t then { t with done := true } else t) ∧
    (∀ s : String, (JValue.str s).eqStr c = true ↔ s = c) ∧
    (cmd_done_category (cmd_done_category tasks c).tasks c).saved = none ∧
    (tasks ≠ [] → (cmd_done_category (cmd_done_category tasks c).tasks c).output =
      ["No pending tasks found in category \"" ++ c ++ "\"."]) := by
  have htasks : ∀ hne : tasks ≠ [], (cmd_done_category tasks c).tasks =
      tasks.map (markDoneIfCat c) := by
    intro hne
    rw [cmd_done_category_cases tasks c hne]
    by_cases h : tasks.countP (pendingInCat c) = 0
    · rw [if_pos h]
      exact (map_of_countP_pending_zero c tasks h).symm
    · rw [if_neg h]
  refine ⟨?_, ?_, ?_, ?_, ?_, ?_, ?_⟩
  · intro h
    subst h
    rfl
  · intro hne h
    rw [cmd_done_category_cases tasks c hne, if_pos h]
  · intro hne h
    rw [cmd_done_category_cases tasks c hne, if_neg h]
  · intro t
    unfold markDoneIfCat pendingInCat
    rfl
  · intro s
    unfold JValue.eqStr
    exact beq_iff_eq
  · by_cases hne : tasks = []
    · subst hne
      rfl
    · rw [htasks hne]
      have hmapne : tasks.map (markDoneIfCat c) ≠ [] := by
        intro h
        exact hne (List.map_eq_nil_iff.mp h)
      rw [cmd_done_category_cases _ c hmapne, if_pos (countP_pending_after_mark c tasks)]
  · intro hne
    rw [htasks hne]
    have hmapne : tasks.map (markDoneIfCat c) ≠ [] := by
      intro h
      exact hne (List.map_eq_nil_iff.mp h)
    rw [cmd_done_category_cases _ c hmapne, if_pos (countP_pending_after_mark c tasks)]

/-- Witness for C5, the spec's scenario: done-category Work on a pending
Work task marks it done and persists; the identical second call reports no
pending tasks and does not persist. -/
theorem cmd_done_category_spec_witness :
    cmd_done_category [Task.mk "Write report" false (JValue.str "normal") (JValue.str "Work")]
        "Work" =
      ⟨[Task.mk "Write report" true (JValue.str "normal") (JValue.str "Work")],
       some [Task.mk "Write report" true (JValue.str "normal") (JValue.str "Work")],
       ["Marked 1 task(s) as done in category \"Work\"."]⟩ ∧
    (cmd_done_category (cmd_done_category
        [Task.mk "Write report" false (JValue.str "normal") (JValue.str "Work")] "Work").tasks
        "Work").saved = none ∧
    (cmd_done_category (cmd_done_category
        [Task.mk "Write report" false (JValue.str "normal") (JValue.str "Work")] "Work").tasks
        "Work").output = ["No pending tasks found in category \"Work\"."] := by
  have h := cmd_done_category_spec
    [Task.mk "Write report" false (JValue.str "normal") (JValue.str "Work")] "Work"
  exact ⟨h.2.2.1 (List.cons_ne_nil _ _) (by decide), h.2.2.2.2.2.1,
         h.2.2.2.2.2.2 (List.cons_ne_nil _ _)⟩

/-! ## C6: clear-completed -/

theorem length_sub_filter (ts : List Task) :
    ts.length - (ts.filter (fun t => !t.done)).length = ts.countP (fun t => t.done) := by
  induction ts with
  | nil => rfl
  | cons t ts ih =>
    have hle := List.length_filter_le (fun t => !t.done) ts
    cases h : t.done with
    | true =>
      simp [List.filter_cons, List.countP_cons, h]
      omega
    | false =>
      simp [List.filter_cons, List.countP_cons, h]
      omega

theorem countP_done_filter (ts : List Task) :
    (ts.filter (fun t => !t.done)).countP (fun t => t.done) = 0 := by
  rw [List.countP_eq_zero]
  intro a ha
  rw [List.mem_filter] at ha
  simpa using ha.2

theorem filter_of_countP_done_zero (ts : List Task) (h : ts.countP (fun t => t.done) = 0) :
    ts.filter (fun t => !t.done) = ts := by
  rw [List.filter_eq_self]
  intro a ha
  rw [List.countP_eq_zero] at h
  simpa using h a ha

theorem cmd_clear_completed_cases (tasks : List Task) (hne : tasks ≠ []) :
    cmd_clear_completed tasks =
      if tasks.countP (fun t => t.done) = 0 then
        ⟨tasks, none, ["There are no completed tasks to clear."]⟩
      else
        ⟨tasks.filter (fun t => !t.done), some (tasks.filter (fun t => !t.done)),
         ["Cleared " ++ toString (tasks.countP (fun t => t.done)) ++ " completed task(s)."]⟩ := by
  unfold cmd_clear_completed
  rw [if_neg (by simpa using hne), length_sub_filter]

theorem cmd_clear_completed_noop (ts : List Task) (h : ts.countP (fun t => t.done) = 0) :
    (cmd_clear_completed ts).saved = none ∧ (cmd_clear_completed ts).tasks = ts := by
  by_cases hne : ts = []
  · subst hne
    exact ⟨rfl, rfl⟩
  · rw [cmd_clear_completed_cases ts hne, if_pos h]
    exact ⟨rfl, rfl⟩

/-- C6: clear-completed removes exactly the tasks with done=true (the
result is the filtered collection); when no task was removed it reports a
nothing-to-clear message and performs no write; otherwise it persists the
remaining tasks and reports the count removed.  In particular a second
immediate call removes zero tasks and performs no write. -/
theorem cmd_clear_completed_spec (tasks : List Task) :
    (cmd_clear_completed tasks).tasks = tasks.filter (fun t => !t.done) ∧
    (tasks.countP (fun t => t.done) = 0 →
      (cmd_clear_completed tasks).saved = none ∧
      ((cmd_clear_completed tasks).output = ["No tasks to clear."] ∨
       (cmd_clear_completed tasks).output = ["There are no completed tasks to clear."])) ∧
    (tasks.countP (fun t => t.done) ≠ 0 →
      (cmd_clear_completed tasks).saved = some (tasks.filter (fun t => !t.done)) ∧
      (cmd_clear_completed tasks).output =
        ["Cleared " ++ toString (tasks.countP (fun t => t.done)) ++ " completed task(s)."]) ∧
    (cmd_clear_completed (cmd_clear_completed tasks).tasks).saved = none ∧
    (cmd_clear_completed (cmd_clear_completed tasks).tasks).tasks =
      (cmd_clear_completed tasks).tasks := by
  by_cases hne : tasks = []
  · subst hne
    exact ⟨rfl, fun _ => ⟨rfl, Or.inl rfl⟩, fun h => absurd rfl h, rfl, rfl⟩
  · have hsecond := cmd_clear_completed_noop (tasks.filter (fun t => !t.done))
      (countP_done_filter tasks)
    rw [cmd_clear_completed_cases tasks hne]
    by_cases h : tasks.countP (fun t => t.done) = 0
    · rw [if_pos h]
      have hfilter := filter_of_countP_done_zero tasks h
      refine ⟨hfilter.symm, fun _ => ⟨rfl, Or.inr rfl⟩, fun hc => absurd h hc, ?_, ?_⟩
      · rw [show (CmdResult.mk tasks none ["There are no completed tasks to clear."]).tasks =
            tasks.filter (fun t => !t.done) from hfilter.symm]
        exact hsecond.1
      · rw [show (CmdResult.mk tasks none ["There are no completed tasks to clear."]).tasks =
            tasks.filter (fun t => !t.done) from hfilter.symm]
        rw [hsecond.2]
    · rw [if_neg h]
      exact ⟨rfl, fun hc => absurd hc h, fun _ => ⟨rfl, rfl⟩, hsecond.1, hsecond.2⟩

/-- Witness for C6: clearing a list with one done and one pending task
removes the done one and persists; the immediate second call does not
write and changes nothing. -/
theorem cmd_clear_completed_spec_witness :
    (cmd_clear_completed [Task.mk "A" true (JValue.str "normal") (JValue.str "None"),
                          Task.mk "B" false (JValue.str "normal") (JValue.str "None")]).saved =
      some [Task.mk "B" false (JValue.str "normal") (JValue.str "None")] ∧
    (cmd_clear_completed (cmd_clear_completed
        [Task.mk "A" true (JValue.str "normal") (JValue.str "None"),
         Task.mk "B" false (JValue.str "normal") (JValue.str "None")]).tasks).saved = none := by
  have h := cmd_clear_completed_spec
    [Task.mk "A" true (JValue.str "normal") (JValue.str "None"),
     Task.mk "B" false (JValue.str "normal") (JValue.str "None")]
  exact ⟨(h.2.2.1 (by decide)).1, h.2.2.2.1⟩

/-! ## C8: trailing priority flag parsing in the router -/

/-- C8: in `add <tokens...>`, if the last token is exactly "--high" or
"--low" it sets the priority and is excluded from the title, otherwise it
stays part of the title and the priority is "normal"; the remaining tokens
joined with single spaces form the title, and `add-category` applies the
same trailing-flag parsing to the tokens after the category token. -/
theorem add_flag_parsing_spec :
    (∀ (args : List String) (last : String), args.getLast? = some last →
      (last = "--high" → parseTitlePriority args = (args.dropLast, "high")) ∧
      (last = "--low" → parseTitlePriority args = (args.dropLast, "low")) ∧
      (last ≠ "--high" → last ≠ "--low" → parseTitlePriority args = (args, "normal"))) ∧
    (∀ (prog : String) (rest : List String) (fs : FileState), rest ≠ [] →
      main (prog :: "add" :: rest) fs =
        cmd_add (load_tasks fs) (String.intercalate " " (parseTitlePriority rest).1)
          (parseTitlePriority rest).2 "None") ∧
    (∀ (prog category t : String) (ts : List String) (fs : FileState),
      main (prog :: "add-category" :: category :: t :: ts) fs =
        cmd_add (load_tasks fs) (String.intercalate " " (parseTitlePriority (t :: ts)).1)
          (parseTitlePriority (t :: ts)).2 category) := by
  refine ⟨?_, ?_, ?_⟩
  · intro args last hlast
    refine ⟨?_, ?_, ?_⟩
    · intro h
      subst h
      simp [parseTitlePriority, hlast]
    · intro h
      subst h
      simp [parseTitlePriority, hlast]
    · intro h1 h2
      simp only [parseTitlePriority, hlast]
      rw [if_neg h1, if_neg h2,
          List.dropLast_append_getLast? last (Option.mem_def.mpr hlast)]
  · intro prog rest fs hne
    cases rest with
    | nil => exact absurd rfl hne
    | cons r rs => rfl
  · intro prog category t ts fs
    rfl

/-- Witness for C8: "add Pay rent --high" routes to priority "high" with
title "Pay rent"; a last token that is no flag stays in the title. -/
theorem add_flag_parsing_spec_witness :
    main ["todo.py", "add", "Pay", "rent", "--high"] FileState.absent =
      cmd_add [] "Pay rent" "high" "None" ∧
    parseTitlePriority ["Pay", "rent", "--high"] = (["Pay", "rent"], "high") ∧
    parseTitlePriority ["Buy", "milk"] = (["Buy", "milk"], "normal") := by
  refine ⟨?_, ?_, ?_⟩
  · rw [add_flag_parsing_spec.2.1 "todo.py" ["Pay", "rent", "--high"] FileState.absent
      (List.cons_ne_nil _ _)]
    rfl
  · exact (add_flag_parsing_spec.1 ["Pay", "rent", "--high"] "--high" rfl).1 rfl
  · exact (add_flag_parsing_spec.1 ["Buy", "milk"] "milk" rfl).2.2 (by decide) (by decide)

/-! ## C9: defaults for missing priority/category keys -/

/-- C9: a loaded record with a string title and a boolean done but lacking
the priority key (resp. the category key) yields a task whose priority is
"normal" (resp. whose category is "None"). -/
theorem load_missing_keys_default (fields : List (String × JValue)) (t : String) (d : Bool)
    (htitle : jget fields "title" = some (JValue.str t))
    (hdone : jget fields "done" = some (JValue.bool d)) :
    (jget fields "priority" = none →
      ∃ tk, load_tasks (FileState.content (JValue.arr [JValue.obj fields])) = [tk] ∧
        tk.priority = JValue.str "normal") ∧
    (jget fields "category" = none →
      ∃ tk, load_tasks (FileState.content (JValue.arr [JValue.obj fields])) = [tk] ∧
        tk.category = JValue.str "None") := by
  have hload : load_tasks (FileState.content (JValue.arr [JValue.obj fields])) =
      [⟨t, d, jgetD fields "priority" (JValue.str "normal"),
              jgetD fields "category" (JValue.str "None")⟩] := by
    simp [load_tasks, List.filterMap_cons, taskOfItem, jgetD, htitle, hdone]
  constructor
  · intro hp
    exact ⟨_, hload, by simp [jgetD, hp]⟩
  · intro hc
    exact ⟨_, hload, by simp [jgetD, hc]⟩

/-- Witness for C9: a record with only title and done loads with both
defaults. -/
theorem load_missing_keys_default_witness :
    (∃ tk, load_tasks (FileState.content (JValue.arr
        [JValue.obj [("title", JValue.str "x"), ("done", JValue.bool true)]])) = [tk] ∧
      tk.priority = JValue.str "normal") ∧
    (∃ tk, load_tasks (FileState.content (JValue.arr
        [JValue.obj [("title", JValue.str "x"), ("done", JValue.bool true)]])) = [tk] ∧
      tk.category = JValue.str "None") :=
  ⟨(load_missing_keys_default [("title", JValue.str "x"), ("done", JValue.bool true)]
      "x" true rfl rfl).1 rfl,
   (load_missing_keys_default [("title", JValue.str "x"), ("done", JValue.bool true)]
      "x" true rfl rfl).2 rfl⟩

/-! ## C3: loader resilience -/

/-- C3 counterexample: a list element with a string title but no done key
at all is NOT skipped — `load_tasks` keeps it with done defaulting to
false, contradicting the claim that every element without a boolean done
is silently skipped. -/
theorem load_missing_done_counterexample :
    load_tasks (FileState.content (JValue.arr [JValue.obj [("title", JValue.str "x")]])) =
      [⟨"x", false, JValue.str "normal", JValue.str "None"⟩] ∧
    load_tasks (FileState.content (JValue.arr [JValue.obj [("title", JValue.str "x")]])) ≠
      ([] : List Task) := by
  constructor
  · rfl
  · intro h
    have h2 : ([⟨"x", false, JValue.str "normal", JValue.str "None"⟩] : List Task) = [] := h
    exact List.cons_ne_nil _ _ h2

/-- C3 amended: `load_tasks` is total and never fails: an absent,
unreadable or syntactically invalid file, or a non-list top level, loads
as the empty list; list elements are converted in order, and an element is
kept exactly when it is a dict with a string title whose done key, if
present, holds a boolean — a missing done key defaults to false instead of
causing a skip.  All other elements are silently skipped. -/
theorem load_tasks_resilience :
    load_tasks FileState.absent = [] ∧
    load_tasks FileState.unreadable = [] ∧
    load_tasks FileState.invalidJson = [] ∧
    (∀ v : JValue, (∀ items, v ≠ JValue.arr items) → load_tasks (FileState.content v) = []) ∧
    (∀ items, load_tasks (FileState.content (JValue.arr items)) = items.filterMap taskOfItem) ∧
    (∀ item, (taskOfItem item).isSome ↔ keptRecord item) := by
  refine ⟨rfl, rfl, rfl, ?_, fun items => rfl, ?_⟩
  · intro v hv
    cases v with
    | arr items => exact absurd rfl (hv items)
    | null => rfl
    | bool b => rfl
    | num n => rfl
    | str s => rfl
    | obj fields => rfl
  · intro item
    cases item with
    | obj fields =>
      have hrec : keptRecord (JValue.obj fields) ↔
          ((∃ t, jget fields "title" = some (JValue.str t)) ∧
           (jget fields "done" = none ∨ ∃ b, jget fields "done" = some (JValue.bool b))) := by
        unfold keptRecord
        constructor
        · rintro ⟨fs, heq, h⟩
          injection heq with h2
          subst h2
          exact h
        · intro h
          exact ⟨fields, rfl, h⟩
      rw [hrec]
      rcases ht : jget fields "title" with _ | tv
      · simp [taskOfItem, ht]
      · cases tv with
        | str t =>
          rcases hd : jget fields "done" with _ | dv
          · simp [taskOfItem, jgetD, ht, hd]
          · cases dv with
            | bool b => simp [taskOfItem, jgetD, ht, hd]
            | null => simp [taskOfItem, jgetD, ht, hd]
            | num n => simp [taskOfItem, jgetD, ht, hd]
            | str s => simp [taskOfItem, jgetD, ht, hd]
            | arr xs => simp [taskOfItem, jgetD, ht, hd]
            | obj fs => simp [taskOfItem, jgetD, ht, hd]
        | null => simp [taskOfItem, ht]
        | bool b => simp [taskOfItem, ht]
        | num n => simp [taskOfItem, ht]
        | arr xs => simp [taskOfItem, ht]
        | obj fs => simp [taskOfItem, ht]
    | null => simp [taskOfItem, keptRecord]
    | bool b => simp [taskOfItem, keptRecord]
    | num n => simp [taskOfItem, keptRecord]
    | str s => simp [taskOfItem, keptRecord]
    | arr items => simp [taskOfItem, keptRecord]

/-- Witness for C3 amended: a corrupted file (non-list top level) loads as
empty, and a concrete mixed list keeps exactly its valid records in
order. -/
theorem load_tasks_resilience_witness :
    load_tasks (FileState.content (JValue.str "not a list")) = [] ∧
    (taskOfItem (JValue.str "junk")).isSome = false := by
  constructor
  · exact load_tasks_resilience.2.2.2.1 (JValue.str "not a list") (fun items h => by cases h)
  · have h := load_tasks_resilience.2.2.2.2.2 (JValue.str "junk")
    rcases hs : (taskOfItem (JValue.str "junk")).isSome with _ | _
    · rfl
    · exfalso
      rcases h.1 hs with ⟨fs, heq, -⟩
      cases heq

end Todo
